import Mathlib

/-!
Verification of the Memphis broker station control plane.

Shallow embedding of the station lifecycle handlers, the schema attach
handlers and the dead-letter-stream (DLS) inspector, translated from the Go
sources (`src/unnamed/part_000`, a station-handlers file of `package server`,
and `src/server/memphis_sdk_handlers.go`).  The metadata store is modelled as
an explicit list of station records, Mongo filters become boolean predicates
on records, and the stream engine becomes an explicit state value.  Helper
functions of the repository that are not part of the provided sources
(`validateName`, `replaceDelimiters`, `IsStationExist`, `GetDlsSubject`, the
`dlsStreamName` template, ...) are modelled from the specification and carry a
doc comment saying so.
-/

namespace MemphisBroker

/-! ## Name canonicalizer (part_000 lines 43-75) -/

/-- Go `strings.ToLower` restricted to the station-name alphabet: lowercases
every character of the string. -/
def toLowerStr (s : String) : String := ⟨s.data.map Char.toLower⟩

/-- Modelled from the spec: `validateName` is not under `src/`.  §4.1 says the
external form is "the input lowercased, validated (domain-defined character
class and length)" and §2 gives the class: lowercase, digits,
dot/dash/underscore.  The spec fixes no numeric length bound, so only
nonemptiness is required here; no claim depends on a length cap. -/
def validStationChar (c : Char) : Bool :=
  c.isLower || c.isDigit || c == '.' || c == '-' || c == '_'

/-- Modelled from the spec: `validateName` (not under `src/`), see
`validStationChar`. -/
def validateName (s : String) : Bool :=
  !s.isEmpty && s.data.all validStationChar

/-- Modelled from the spec: the reversible delimiter substitution used by
`replaceDelimiters` (not under `src/`): the user delimiter `.` becomes an
engine-safe delimiter. -/
def replaceDelimChar (c : Char) : Char := if c == '.' then '#' else c

/-- Modelled from the spec: inverse substitution used by `revertDelimiters`
(not under `src/`). -/
def revertDelimChar (c : Char) : Char := if c == '#' then '.' else c

/-- Modelled from the spec: `replaceDelimiters` (not under `src/`) substitutes
user delimiters with engine-safe delimiters, reversibly (§4.1). -/
def replaceDelimiters (s : String) : String := ⟨s.data.map replaceDelimChar⟩

/-- Modelled from the spec: `revertDelimiters` (not under `src/`), the inverse
substitution (§4.1). -/
def revertDelimiters (s : String) : String := ⟨s.data.map revertDelimChar⟩

/-- `StationName` (part_000 lines 43-46): internal stream name and external
user-visible name. -/
structure StationName where
  internal : String
  external : String
deriving Repr, DecidableEq

/-- `StationNameFromStr` (part_000 lines 56-68): lowercase the input, validate
it, and lowercase the delimiter-substituted form for the internal name. -/
def StationNameFromStr (name : String) : Except String StationName :=
  let ex := toLowerStr name
  if validateName ex then
    Except.ok { internal := toLowerStr (replaceDelimiters name), external := ex }
  else
    Except.error "station name can contain only lowercase letters, digits, dots, dashes and underscores"

/-- `StationNameFromStreamName` (part_000 lines 70-75). -/
def StationNameFromStreamName (streamName : String) : StationName :=
  { internal := streamName, external := revertDelimiters streamName }

/-! ## Validators (part_000 lines 77-99) -/

/-- `validateRetentionType` (lines 77-83), as a boolean: true iff no error. -/
def validateRetentionType (t : String) : Bool :=
  t == "message_age_sec" || t == "messages" || t == "bytes"

/-- `validateStorageType` (lines 85-91), as a boolean: true iff no error. -/
def validateStorageType (t : String) : Bool :=
  t == "file" || t == "memory"

/-- `validateReplicas` (lines 93-99), as a boolean: true iff no error
(errors exactly when more than 5 replicas are requested). -/
def validateReplicas (r : Int) : Bool :=
  !(r > 5)

/-! ## Data model -/

/-- `models.SchemaDetails`: the schema binding persisted on a station. -/
structure SchemaDetails where
  schemaName : String
  versionNumber : Int
deriving Repr, DecidableEq

/-- A station document of the stations collection.  `isDeleted = none` models
a legacy document in which the `is_deleted` field is absent; ids, timestamps
and the functions list are outside the embedded state (no claim touches
them). -/
structure Station where
  name : String
  isDeleted : Option Bool
  retentionType : String
  retentionValue : Int
  storageType : String
  replicas : Int
  dedupEnabled : Bool
  dedupWindowInMs : Int
  idempotencyWindow : Int
  schema : Option SchemaDetails
  isNative : Bool
deriving Repr, DecidableEq

/-- The Go zero value of `models.Station`, which `IsStationExist` yields when
no document matches (empty name, explicit `is_deleted = false`). -/
def zeroStation : Station :=
  { name := "", isDeleted := some false, retentionType := "", retentionValue := 0
    storageType := "", replicas := 0, dedupEnabled := false, dedupWindowInMs := 0
    idempotencyWindow := 0, schema := none, isNative := false }

/-- A schema record together with its active version number
(`getActiveVersionBySchemaId` is collapsed into the `activeVersion` field). -/
structure Schema where
  name : String
  activeVersion : Int
deriving Repr, DecidableEq

/-- Go zero value of `models.Schema` as returned by a missed lookup. -/
def zeroSchema : Schema := { name := "", activeVersion := 0 }

/-! ## Mongo filters on the stations collection -/

/-- The lookup filter of `GetStation` (part_000 lines 359-365):
`{name, $or: [{is_deleted: false}, {is_deleted: {$exists: false}}]}`. -/
def getStationFilter (name : String) (st : Station) : Bool :=
  st.name == name && (st.isDeleted == some false || st.isDeleted == none)

/-- The tombstone filter of `removeStationDirectIntern` (part_000 lines
947-956): same `$or` shape as the lookup filter. -/
def removeStationTombstoneFilter (name : String) (st : Station) : Bool :=
  st.name == name && (st.isDeleted == some false || st.isDeleted == none)

/-- The scan filter of `LaunchDlsForOldStations` (part_000 lines 2036-2041):
only the `$or` clause, with no name key. -/
def launchDlsScanFilter (st : Station) : Bool :=
  st.isDeleted == some false || st.isDeleted == none

/-- The `UpdateOne` filter of `useSchemaDirect` (part_000 line 1746) and of
`UseSchema` (line 1648): `{name, is_deleted: false}` — strictly false, with no
`$exists: false` arm. -/
def useSchemaUpdateFilter (name : String) (st : Station) : Bool :=
  st.name == name && st.isDeleted == some false

/-- The upsert filter of the HTTP `CreateStation` (part_000 line 668):
`{name, is_deleted: false}` — strictly false. -/
def createUpsertFilter (name : String) (st : Station) : Bool :=
  st.name == name && st.isDeleted == some false

/-! ## Store environment and lookups -/

/-- Control-plane state: stations collection, schemas collection, and the
names of the streams existing in the engine.  The engine adapter is modelled
as always succeeding; producer/consumer/tag/audit collections are outside the
embedded state. -/
structure Env where
  stations : List Station
  schemas : List Schema
  streams : List String
deriving Repr, DecidableEq

/-- Modelled from the spec: `IsStationExist` is not under `src/`.  §4.3 step 2
queries for "an existing non-deleted station with this external name"; on a
miss the Go function returns the zero-valued station record (§9 note 2). -/
def IsStationExist (stations : List Station) (sn : StationName) : Bool × Station :=
  match stations.find? (fun st => getStationFilter sn.external st) with
  | some st => (true, st)
  | none => (false, zeroStation)

/-- Modelled from the spec: `IsSchemaExist` is not under `src/`; lookup by
(lowercased) schema name, zero record on a miss. -/
def IsSchemaExist (schemas : List Schema) (name : String) : Bool × Schema :=
  match schemas.find? (fun sc => sc.name == name) with
  | some sc => (true, sc)
  | none => (false, zeroSchema)

/-- Modelled from the spec: the DLS stream of a station is "named by a fixed
template over the internal name" (§3); the `dlsStreamName` format string is
not under `src/`. -/
def dlsStreamNameFmt (intern : String) : String := "$memphis-dls-" ++ intern

/-- Mongo `UpdateOne` semantics on a list: rewrite the first record matching
the filter, leave everything else alone. -/
def updateFirst (l : List Station) (p : Station → Bool) (f : Station → Station) : List Station :=
  match l with
  | [] => []
  | x :: xs => if p x then f x :: xs else x :: updateFirst xs p f

/-- `respondWithErr` (memphis_sdk_handlers.go lines 179-185): the reply is
empty bytes when the error is nil, and the error text otherwise. -/
def respondWithErr (err : Option String) : String :=
  match err with
  | none => ""
  | some e => e

/-- Number of live (non-tombstoned, including legacy field-absent) station
records carrying the given external name. -/
def liveCount (stations : List Station) (name : String) : Nat :=
  (stations.filter (fun st => getStationFilter name st)).length

/-! ## CreateStation — SDK-direct variant (part_000 lines 161-348) -/

/-- `createStationRequest` (memphis_sdk_handlers.go lines 27-38); the
`dls_configuration` field is not touched by any claim and is omitted. -/
structure CreateStationRequest where
  stationName : String
  schemaName : String
  retentionType : String
  retentionValue : Int
  storageType : String
  replicas : Int
  dedupEnabled : Bool
  dedupWindowMillis : Int
  idempotencyWindow : Int
deriving Repr, DecidableEq

/-- Idempotency-window normalization of `createStationDirectIntern`
(part_000 lines 265-269). -/
def normalizeIdempotencyWindowDirect (x : Int) : Int :=
  if x ≤ 0 then 120000 else if x < 100 then 100 else x

/-- Idempotency-window normalization of the HTTP `CreateStation`
(part_000 lines 626-630); textually identical to the direct variant. -/
def normalizeIdempotencyWindowHTTP (x : Int) : Int :=
  if x ≤ 0 then 120000 else if x < 100 then 100 else x

/-- `createStationDirectIntern` (part_000 lines 161-348), native path
(`nonNativeCreateStreamFunc = nil`, so `isNative = true` and every
`respondWithErrOrJsApiResp` call lands in `respondWithErr`).  Returns the new
state and the reply bytes.  Two quirks of the source are preserved: on the
"already exists" and "schema does not exist" paths the Go code passes the
`err` variable — which is nil there — to the responder, so the native reply is
empty bytes; and the persist step is a plain `InsertOne` (line 313), not an
upsert.  The engine calls (`CreateStream`, `CreateDlsStream`) and the store
writes are modelled as succeeding; audit-log and analytics effects are
dropped. -/
def createStationDirect (env : Env) (csr : CreateStationRequest) : Env × String :=
  match StationNameFromStr csr.stationName with
  | .error e => (env, respondWithErr (some e))
  | .ok stationName =>
    if (IsStationExist env.stations stationName).1 then
      (env, respondWithErr none)
    else
      let schemaRes : Except (Option String) (Option SchemaDetails) :=
        if csr.schemaName == "" then .ok none
        else
          let lname := toLowerStr csr.schemaName
          let found := IsSchemaExist env.schemas lname
          if found.1 then .ok (some { schemaName := lname, versionNumber := found.2.activeVersion })
          else .error none
      match schemaRes with
      | .error e => (env, respondWithErr e)
      | .ok schemaDetails =>
        let retRes : Except String (String × Int) :=
          if csr.retentionType == "" then .ok ("message_age_sec", 604800)
          else
            let rt := toLowerStr csr.retentionType
            if validateRetentionType rt then .ok (rt, csr.retentionValue)
            else .error "retention type can be one of the following message_age_sec/messages/bytes"
        match retRes with
        | .error e => (env, respondWithErr (some e))
        | .ok ret =>
          let stoRes : Except String String :=
            if csr.storageType == "" then .ok "file"
            else
              let sty := toLowerStr csr.storageType
              if validateStorageType sty then .ok sty
              else .error "storage type can be one of the following file/memory"
          match stoRes with
          | .error e => (env, respondWithErr (some e))
          | .ok storageType =>
            let repRes : Except String Int :=
              if csr.replicas > 0 then
                if validateReplicas csr.replicas then .ok csr.replicas
                else .error "max replicas in a cluster is 5"
              else .ok 1
            match repRes with
            | .error e => (env, respondWithErr (some e))
            | .ok replicas =>
              let newStation : Station :=
                { name := stationName.external
                  isDeleted := some false
                  retentionType := ret.1
                  retentionValue := ret.2
                  storageType := storageType
                  replicas := replicas
                  dedupEnabled := csr.dedupEnabled
                  dedupWindowInMs := csr.dedupWindowMillis
                  idempotencyWindow := normalizeIdempotencyWindowDirect csr.idempotencyWindow
                  schema := schemaDetails
                  isNative := true }
              let env1 : Env :=
                { env with streams :=
                    env.streams ++ [stationName.internal, dlsStreamNameFmt stationName.internal] }
              let env2 : Env := { env1 with stations := env1.stations ++ [newStation] }
              (env2, respondWithErr none)

/-! ## CreateStation — HTTP variant (part_000 lines 522-799) -/

/-- Outcome of an HTTP handler: 200 success, a showable user error, or a 500. -/
inductive HttpReply where
  | ok
  | showable (msg : String)
  | serverError
deriving Repr, DecidableEq

/-- The `$setOnInsert` upsert of the HTTP `CreateStation` (part_000 lines
666-722): filter `{name, is_deleted: false}`, insert the record only when
nothing matches, report whether a match was found (`MatchedCount > 0`). -/
def upsertStationIfAbsent (stations : List Station) (st : Station) : List Station × Bool :=
  if stations.any (fun x => createUpsertFilter st.name x) then (stations, true)
  else (stations ++ [st], false)

/-- HTTP `CreateStation` (part_000 lines 522-799).  Request-body validation,
the middleware user, tags and the JSON response body are outside the embedded
state; retention normalization requires `retention_value > 0` as in the
source (line 585); streams are created before the metadata upsert; the
persist step is the upsert-if-absent with `MatchedCount` check. -/
def createStationHTTP (env : Env) (body : CreateStationRequest) : Env × HttpReply :=
  match StationNameFromStr body.stationName with
  | .error e => (env, .showable e)
  | .ok stationName =>
    if (IsStationExist env.stations stationName).1 then
      (env, .showable ("Station " ++ stationName.external ++ " already exists"))
    else
      let schemaRes : Except HttpReply (Option SchemaDetails) :=
        if body.schemaName == "" then .ok none
        else
          let lname := toLowerStr body.schemaName
          let found := IsSchemaExist env.schemas lname
          if found.1 then .ok (some { schemaName := lname, versionNumber := found.2.activeVersion })
          else .error (.showable ("Schema " ++ lname ++ " does not exist"))
      match schemaRes with
      | .error r => (env, r)
      | .ok schemaDetails =>
        let retRes : Except String (String × Int) :=
          if body.retentionType != "" && body.retentionValue > 0 then
            let rt := toLowerStr body.retentionType
            if validateRetentionType rt then .ok (rt, body.retentionValue)
            else .error "retention type can be one of the following message_age_sec/messages/bytes"
          else .ok ("message_age_sec", 604800)
        match retRes with
        | .error e => (env, .showable e)
        | .ok ret =>
          let stoRes : Except String String :=
            if body.storageType != "" then
              let sty := toLowerStr body.storageType
              if validateStorageType sty then .ok sty
              else .error "storage type can be one of the following file/memory"
            else .ok "file"
          match stoRes with
          | .error e => (env, .showable e)
          | .ok storageType =>
            let repRes : Except String Int :=
              if body.replicas > 0 then
                if validateReplicas body.replicas then .ok body.replicas
                else .error "max replicas in a cluster is 5"
              else .ok 1
            match repRes with
            | .error e => (env, .showable e)
            | .ok replicas =>
              let newStation : Station :=
                { name := stationName.external
                  isDeleted := some false
                  retentionType := ret.1
                  retentionValue := ret.2
                  storageType := storageType
                  replicas := replicas
                  dedupEnabled := body.dedupEnabled
                  dedupWindowInMs := body.dedupWindowMillis
                  idempotencyWindow := normalizeIdempotencyWindowHTTP body.idempotencyWindow
                  schema := schemaDetails
                  isNative := true }
              let env1 : Env :=
                { env with streams :=
                    env.streams ++ [stationName.internal, dlsStreamNameFmt stationName.internal] }
              let up := upsertStationIfAbsent env1.stations newStation
              if up.2 then
                (env1, .showable ("Station " ++ newStation.name ++ " already exists"))
              else
                ({ env1 with stations := up.1 }, .ok)

/-! ## DestroyStation — SDK-direct variant (part_000 lines 899-981) -/

/-- `destroyStationRequest` (memphis_sdk_handlers.go lines 40-42). -/
structure DestroyStationRequest where
  stationName : String
deriving Repr, DecidableEq

/-- `removeStationDirectIntern` (part_000 lines 909-981), native path.  When
the station is absent the error message is built from the zero-valued station
record that `IsStationExist` returned (lines 931-938), so its name part is
empty.  `removeStationResources` is embedded as the removal of the main and
DLS streams plus the tombstone update; producer/consumer/tag/audit effects
are outside the embedded state. -/
def removeStationDirect (env : Env) (dsr : DestroyStationRequest) : Env × String :=
  match StationNameFromStr dsr.stationName with
  | .error e => (env, respondWithErr (some e))
  | .ok stationName =>
    let found := IsStationExist env.stations stationName
    if !found.1 then
      (env, respondWithErr (some ("Station " ++ found.2.name ++ " does not exist")))
    else
      let env1 : Env :=
        { env with
          streams := env.streams.filter
            (fun s => !(s == stationName.internal) && !(s == dlsStreamNameFmt stationName.internal))
          stations := updateFirst env.stations
            (fun st => removeStationTombstoneFilter stationName.external st)
            (fun st => { st with isDeleted := some true }) }
      (env1, respondWithErr none)

/-! ## AttachSchema — SDK-direct variant (part_000 lines 1694-1790) -/

/-- `attachSchemaRequest` (memphis_sdk_handlers.go lines 79-82). -/
structure AttachSchemaRequest where
  name : String
  stationName : String
deriving Repr, DecidableEq

/-- A `models.ProducerSchemaUpdate`.  `init` carries the resolved schema
content, identified here by the schema name and the active version it was
generated from (`generateSchemaUpdateInit` is not under `src/`; modelled from
the spec as total: §4.4 propagation publishes `Init{schemaContent}`). -/
inductive SchemaUpdate where
  | init (schemaName : String) (activeVersion : Int)
  | drop
deriving Repr, DecidableEq

/-- The station-scoped schema update subject (§6 of the spec):
`$memphis_schema_updates_<internalStation>`. -/
def schemaUpdatesSubject (intern : String) : String :=
  "$memphis_schema_updates_" ++ intern

/-- Result of a direct handler invocation: final state, replies sent on the
reply subject, schema updates published (subject, payload), and whether the
handler panicked (a nil-error dereference aborts the goroutine without a
reply). -/
structure DirectResult where
  env : Env
  replies : List String
  published : List (String × SchemaUpdate)
  panicked : Bool
deriving Repr, DecidableEq

/-- `useSchemaDirect` (part_000 lines 1694-1790).  The store and the
propagation helpers are modelled as succeeding.  One quirk of the source is
preserved faithfully: on the "schema does not exist" path (lines 1731-1736)
the Go code evaluates `err.Error()` on an error that is necessarily nil at
that point (it was checked at line 1726), which is a nil-pointer dereference:
the handler goroutine panics and no reply is ever sent. -/
def useSchemaDirect (env : Env) (asr : AttachSchemaRequest) : DirectResult :=
  match StationNameFromStr asr.stationName with
  | .error e => { env := env, replies := [respondWithErr (some e)], published := [], panicked := false }
  | .ok stationName =>
    if !(IsStationExist env.stations stationName).1 then
      { env := env
        replies := [respondWithErr (some ("memphis: Station " ++ stationName.external ++ " does not exist"))]
        published := [], panicked := false }
    else
      let schemaName := toLowerStr asr.name
      let found := IsSchemaExist env.schemas schemaName
      if !found.1 then
        { env := env, replies := [], published := [], panicked := true }
      else
        let details : SchemaDetails :=
          { schemaName := schemaName, versionNumber := found.2.activeVersion }
        let stations := updateFirst env.stations
          (fun st => useSchemaUpdateFilter stationName.external st)
          (fun st => { st with schema := some details })
        { env := { env with stations := stations }
          replies := [respondWithErr none]
          published := [(schemaUpdatesSubject stationName.internal,
                         SchemaUpdate.init schemaName found.2.activeVersion)]
          panicked := false }

/-! ## Dead-letter inspector (part_000 lines 1159-1412) -/

/-- DLS message kinds (§4.5 of the spec). -/
inductive DlsKind where
  | poison
  | schemaverse
deriving Repr, DecidableEq

/-- Modelled from the spec: the DLS id format is
`<internalStation><sep><kind><sep><seq>` (§4.5).  The separator constant
`dlsMsgSep` is not under `src/`, so the id is modelled structurally; the
handlers read the station component exactly as `strings.Split(id, dlsMsgSep)[0]`
reads it from the string form. -/
structure DlsMsgId where
  station : String
  kind : DlsKind
  seq : Nat
deriving Repr, DecidableEq

/-- Modelled from the spec: `GetDlsSubject` is not under `src/`.  It builds
the engine filter subject from a kind, an internal station name and the full
message id (part_000 lines 1185, 1299 call it exactly so); the subject is
modelled structurally. -/
structure DlsSubject where
  kind : DlsKind
  station : String
  msgId : DlsMsgId
deriving Repr, DecidableEq

/-- Modelled from the spec: `GetDlsSubject` (not under `src/`). -/
def GetDlsSubject (kind : DlsKind) (station : String) (msgId : DlsMsgId) : DlsSubject :=
  { kind := kind, station := station, msgId := msgId }

/-- A `StoredMsg` of the engine, restricted to the fields the DLS claims
touch: the subject it is stored under and its stream sequence. -/
structure StoredMsg where
  subject : DlsSubject
  sequence : Nat
deriving Repr, DecidableEq

/-- A stream of the engine: its name and its messages in stream order. -/
structure StreamState where
  name : String
  msgs : List StoredMsg
deriving Repr, DecidableEq

/-- Engine state for the DLS claims: streams and durable consumers, a
consumer being the pair (stream name, durable name). -/
structure DlsEngine where
  streams : List StreamState
  consumers : List (String × String)
deriving Repr, DecidableEq

/-- `memphisStreamInfo`: look a stream up by name. -/
def findStream (e : DlsEngine) (name : String) : Option StreamState :=
  e.streams.find? (fun s => s.name == name)

/-- `memphisAddConsumer`: register a durable consumer on a stream. -/
def addConsumer (e : DlsEngine) (stream durable : String) : DlsEngine :=
  { e with consumers := e.consumers ++ [(stream, durable)] }

/-- `memphisRemoveConsumer`: remove a durable consumer. -/
def removeConsumer (e : DlsEngine) (stream durable : String) : DlsEngine :=
  { e with consumers := e.consumers.filter (fun c => !(c == (stream, durable))) }

/-- `memphisDeleteMsgFromStream`: delete a message from a stream by
sequence. -/
def deleteMsgFromStream (e : DlsEngine) (streamName : String) (seq : Nat) : DlsEngine :=
  { e with streams := e.streams.map (fun s =>
      if s.name == streamName then
        { s with msgs := s.msgs.filter (fun m => !(m.sequence == seq)) }
      else s) }

/-- The messages of a stream matching a filter subject. -/
def matchingMsgs (st : StreamState) (filter : DlsSubject) : List StoredMsg :=
  st.msgs.filter (fun m => m.subject == filter)

/-- One event observed by the fetch loop's `select`: either the 1-second timer
fires or a message arrives on the response channel. -/
inductive FetchEvent where
  | timerFired
  | arrival (m : StoredMsg)
deriving Repr, DecidableEq

/-- The collection loop of the fetch-by-filter protocol (part_000 lines
1234-1242): at most `amount` iterations, each selecting the next event; a
timer event breaks to cleanup, an arrival is appended to the buffer. -/
def collectLoop : Nat → List FetchEvent → List StoredMsg
  | 0, _ => []
  | _ + 1, [] => []
  | _ + 1, FetchEvent.timerFired :: _ => []
  | n + 1, FetchEvent.arrival m :: rest => m :: collectLoop n rest

/-- The delivery schedule in which the engine delivers every message matching
the filter, in stream order, before the 1-second timer fires — the scenario
of spec §8 item 10. -/
def deliveryThenTimeout (st : StreamState) (filter : DlsSubject) : List FetchEvent :=
  (matchingMsgs st filter).map FetchEvent.arrival ++ [FetchEvent.timerFired]

/-- Errors of the fetch-by-filter protocol that the embedding distinguishes. -/
inductive FetchErr where
  | streamMissing
  | subscribeFailed
deriving Repr, DecidableEq

/-- Either the collected buffer or the error a fetch aborted with. -/
inductive FetchResult where
  | error (e : FetchErr)
  | ok (msgs : List StoredMsg)
deriving Repr, DecidableEq

/-- Result of one fetch-by-filter run: the engine state it leaves behind and
either the collected buffer or the error it aborted with. -/
structure FetchOutcome where
  engine : DlsEngine
  result : FetchResult
deriving Repr, DecidableEq

/-- The fetch-by-filter protocol of `AckPoisonMessages` /
`ResendPoisonMessages` (part_000 lines 1176-1252 and 1290-1366): read the
stream info (the requested amount is the total message count of the stream),
create the durable consumer, subscribe the reply subject, run the collection
loop until the amount is reached or the timer fires, then unsubscribe and
remove the durable consumer.  `subOk` models whether `subscribeOnGlobalAcc`
succeeds; when it fails the source returns at lines 1226-1230 *without*
removing the durable consumer it created at line 1194.  `events` models the
arrival/timer schedule of the response channel. -/
def fetchDlsByFilter (e : DlsEngine) (streamName durable : String) (_filter : DlsSubject)
    (subOk : Bool) (events : List FetchEvent) : FetchOutcome :=
  match findStream e streamName with
  | none => { engine := e, result := .error .streamMissing }
  | some st =>
    let amount := st.msgs.length
    let e1 := addConsumer e streamName durable
    if !subOk then { engine := e1, result := .error .subscribeFailed }
    else
      let collected := collectLoop amount events
      { engine := removeConsumer e1 streamName durable, result := .ok collected }

/-- The deletion phase of `AckPoisonMessages` (part_000 lines 1254-1261):
delete every collected message from the stream by sequence. -/
def ackDeleteCollected (e : DlsEngine) (streamName : String) (collected : List StoredMsg) : DlsEngine :=
  collected.foldl (fun acc m => deleteMsgFromStream acc streamName m.sequence) e

/-- One iteration of the `AckPoisonMessages` loop for a single id: fetch by
filter, then delete everything collected. -/
def ackPoisonMsgOne (e : DlsEngine) (streamName durable : String) (filter : DlsSubject)
    (subOk : Bool) (events : List FetchEvent) : DlsEngine × FetchResult :=
  let out := fetchDlsByFilter e streamName durable filter subOk events
  match out.result with
  | .error err => (out.engine, .error err)
  | .ok collected => (ackDeleteCollected out.engine streamName collected, .ok collected)

/-- The per-id loop of `AckPoisonMessages` (part_000 lines 1175-1262).  The
stream name and the internal station are fixed before the loop from the first
id of the request; each iteration fetches with a poison-kind filter built
from that station and the current id, then deletes what it collected.  The
nuid-generated durable names are modelled by an index counter; `events n`
gives the delivery schedule of iteration `n`.  Returns the final engine and
the (stream, filter) descriptor of every fetch performed, or `none` when an
iteration aborted with a 500. -/
def ackPoisonLoop (streamName intern : String) (events : Nat → List FetchEvent) :
    DlsEngine → List DlsMsgId → Nat → Option (DlsEngine × List (String × DlsSubject))
  | e, [], _ => some (e, [])
  | e, msgId :: rest, n =>
    let durable := "$memphis_fetch_dls_consumer_" ++ toString n
    let filter := GetDlsSubject .poison intern msgId
    match ackPoisonMsgOne e streamName durable filter true (events n) with
    | (_, .error _) => none
    | (e1, .ok _) =>
      match ackPoisonLoop streamName intern events e1 rest (n + 1) with
      | none => none
      | some (e2, fs) => some (e2, (streamName, filter) :: fs)

/-- `AckPoisonMessages` (part_000 lines 1159-1271): split the *first* id of
the request, canonicalize its station component, fix the DLS stream name from
it, and run the per-id loop.  An empty id list would make the Go code panic
on `PoisonMessageIds[0]`; the embedding returns `none` there. -/
def ackPoisonMessages (e : DlsEngine) (ids : List DlsMsgId) (events : Nat → List FetchEvent) :
    Option (DlsEngine × List (String × DlsSubject)) :=
  match ids with
  | [] => none
  | id0 :: _ =>
    match StationNameFromStr id0.station with
    | .error _ => none
    | .ok sn => ackPoisonLoop (dlsStreamNameFmt sn.internal) sn.internal events e ids 0

/-- The per-id loop of `ResendPoisonMessages` (part_000 lines 1289-1403)
restricted to its fetch section, which is textually identical to the Ack
fetch; the republish phase touches neither streams nor consumers and records
no descriptor, so it is not embedded. -/
def resendPoisonLoop (streamName intern : String) (events : Nat → List FetchEvent) :
    DlsEngine → List DlsMsgId → Nat → Option (DlsEngine × List (String × DlsSubject))
  | e, [], _ => some (e, [])
  | e, msgId :: rest, n =>
    let durable := "$memphis_fetch_dls_consumer_" ++ toString n
    let filter := GetDlsSubject .poison intern msgId
    match fetchDlsByFilter e streamName durable filter true (events n) with
    | { engine := _, result := .error _ } => none
    | { engine := e1, result := .ok _ } =>
      match resendPoisonLoop streamName intern events e1 rest (n + 1) with
      | none => none
      | some (e2, fs) => some (e2, (streamName, filter) :: fs)

/-- `ResendPoisonMessages` (part_000 lines 1273-1412): identical derivation of
the stream name and filters from the first id of the request. -/
def resendPoisonMessages (e : DlsEngine) (ids : List DlsMsgId) (events : Nat → List FetchEvent) :
    Option (DlsEngine × List (String × DlsSubject)) :=
  match ids with
  | [] => none
  | id0 :: _ =>
    match StationNameFromStr id0.station with
    | .error _ => none
    | .ok sn => resendPoisonLoop (dlsStreamNameFmt sn.internal) sn.internal events e ids 0

/-- A DLS stream is well formed for its station when every stored message
carries a subject whose station component is that station and whose embedded
id is consistent with the subject (same station, same kind) — which is how
the engine stores DLS entries (§4.5: the id embeds the station, the kind and
the sequence the entry was stored under). -/
def wellFormedDlsStream (station : String) (st : StreamState) : Bool :=
  st.msgs.all (fun m =>
    m.subject.station == station &&
    m.subject.msgId.station == station &&
    m.subject.msgId.kind == m.subject.kind)

/-! # Helper lemmas -/

lemma validStationChar_ne_hash {c : Char} (h : validStationChar c = true) : c ≠ '#' := by
  intro he
  subst he
  exact absurd h (by decide)

lemma revert_toLower_replace {n : String} (h : validateName (toLowerStr n) = true) :
    revertDelimiters (toLowerStr (replaceDelimiters n)) = toLowerStr n := by
  have hall : ∀ c ∈ n.data, validStationChar (Char.toLower c) = true := by
    have h2 : ((toLowerStr n).data.all validStationChar) = true := by
      unfold validateName at h
      exact (Bool.and_eq_true _ _).mp h |>.2
    intro c hc
    have hmem : Char.toLower c ∈ (toLowerStr n).data :=
      List.mem_map_of_mem Char.toLower hc
    exact List.all_eq_true.mp h2 _ hmem
  show (⟨((n.data.map replaceDelimChar).map Char.toLower).map revertDelimChar⟩ : String)
      = ⟨n.data.map Char.toLower⟩
  congr 1
  rw [List.map_map, List.map_map]
  apply List.map_congr_left
  intro a ha
  have hv := hall a ha
  show revertDelimChar (Char.toLower (replaceDelimChar a)) = Char.toLower a
  by_cases hdot : a = '.'
  · subst hdot
    decide
  · have h1 : replaceDelimChar a = a := by
      unfold replaceDelimChar
      simp [hdot]
    rw [h1]
    unfold revertDelimChar
    have hne : Char.toLower a ≠ '#' := validStationChar_ne_hash hv
    simp [hne]

lemma append_singleton_ne (l : List Station) (a : Station) : l ≠ l ++ [a] := by
  intro h
  have hlen := congrArg List.length h
  simp only [List.length_append, List.length_cons, List.length_nil] at hlen
  omega

lemma isStationExist_false_elim {l : List Station} {sn : StationName}
    (h : (IsStationExist l sn).1 = false) :
    l.find? (fun st => getStationFilter sn.external st) = none := by
  unfold IsStationExist at h
  cases hf : l.find? (fun st => getStationFilter sn.external st) with
  | some y => rw [hf] at h; simp at h
  | none => rfl

lemma isStationExist_of_find {l : List Station} {sn : StationName} {st : Station}
    (h : l.find? (fun x => getStationFilter sn.external x) = some st) :
    IsStationExist l sn = (true, st) := by
  unfold IsStationExist
  rw [h]

lemma isStationExist_append_live {l : List Station} {sn : StationName} {st : Station}
    (hname : st.name = sn.external) (hdel : st.isDeleted = some false) :
    (IsStationExist (l ++ [st]) sn).1 = true := by
  unfold IsStationExist
  cases hf : (l ++ [st]).find? (fun x => getStationFilter sn.external x) with
  | some y => rfl
  | none =>
    exfalso
    have hmem : st ∈ l ++ [st] := by simp
    have hfail := List.find?_eq_none.mp hf st hmem
    apply hfail
    simp [getStationFilter, hname, hdel]

lemma liveCount_zero_of_not_exist {l : List Station} {sn : StationName}
    (h : (IsStationExist l sn).1 = false) : liveCount l sn.external = 0 := by
  have hf := isStationExist_false_elim h
  unfold liveCount
  have : l.filter (fun st => getStationFilter sn.external st) = [] := by
    rw [List.filter_eq_nil_iff]
    exact List.find?_eq_none.mp hf
  rw [this]
  rfl

lemma liveCount_append_live {l : List Station} {st : Station} {name : String}
    (hname : st.name = name) (hdel : st.isDeleted = some false) :
    liveCount (l ++ [st]) name = liveCount l name + 1 := by
  unfold liveCount
  rw [List.filter_append]
  simp [getStationFilter, hname, hdel]

/-! # C6: canonicalizer round trip -/

/-- C6: for every name accepted by the canonicalizer, mapping it with
`StationNameFromStr` and mapping the resulting internal stream name back with
`StationNameFromStreamName` yields the same external and internal names. -/
theorem stationName_roundtrip (n : String) (sn : StationName)
    (h : StationNameFromStr n = .ok sn) :
    StationNameFromStreamName sn.internal = sn := by
  unfold StationNameFromStr at h
  by_cases hv : validateName (toLowerStr n) = true
  · rw [if_pos hv] at h
    injection h with h
    subst h
    unfold StationNameFromStreamName
    rw [revert_toLower_replace hv]
  · rw [if_neg hv] at h
    exact Except.noConfusion h

/-- Witness for C6 at the concrete name `"a.b-c"`. -/
theorem stationName_roundtrip_witness :
    StationNameFromStreamName "a#b-c" = { internal := "a#b-c", external := "a.b-c" } :=
  stationName_roundtrip "a.b-c" { internal := "a#b-c", external := "a.b-c" } (by rfl)

/-! # C10: is_deleted-absent handling in the filters -/

/-- A legacy station document whose `is_deleted` field is absent. -/
def legacyRec : Station :=
  { name := "s1", isDeleted := none, retentionType := "message_age_sec"
    retentionValue := 604800, storageType := "file", replicas := 1
    dedupEnabled := false, dedupWindowInMs := 0, idempotencyWindow := 120000
    schema := none, isNative := true }

/-- C10 counterexample: the legacy record is live for the `GetStation` lookup
filter, but the `useSchemaDirect` update filter — an update filter of the
control plane — does not match it, refuting "every station lookup, tombstone,
and update filter ... match is_deleted=false or is_deleted absent". -/
theorem useSchemaUpdateFilter_excludes_legacy :
    getStationFilter "s1" legacyRec = true ∧ useSchemaUpdateFilter "s1" legacyRec = false := by
  decide

/-- C10 (amended): the three cited filters — the `GetStation` lookup, the
`removeStationDirectIntern` tombstone and the `LaunchDlsForOldStations` scan —
treat a record with the `is_deleted` field absent as live (they match exactly
the records that are not explicitly deleted), while the schema-attach update
filter and the `CreateStation` upsert filter require `is_deleted = false`
explicitly and therefore never match a legacy record. -/
theorem stationFilters_absent_as_live_amended :
    (∀ name st, getStationFilter name st = (st.name == name && !(st.isDeleted == some true)))
    ∧ (∀ name st, removeStationTombstoneFilter name st
        = (st.name == name && !(st.isDeleted == some true)))
    ∧ (∀ st, launchDlsScanFilter st = !(st.isDeleted == some true))
    ∧ (∀ name st, st.isDeleted = none →
        useSchemaUpdateFilter name st = false ∧ createUpsertFilter name st = false) := by
  refine ⟨?_, ?_, ?_, ?_⟩
  · intro name st
    unfold getStationFilter
    rcases st.isDeleted with _ | b
    · simp
    · cases b <;> simp
  · intro name st
    unfold removeStationTombstoneFilter
    rcases st.isDeleted with _ | b
    · simp
    · cases b <;> simp
  · intro st
    unfold launchDlsScanFilter
    rcases st.isDeleted with _ | b
    · simp
    · cases b <;> simp
  · intro name st h
    unfold useSchemaUpdateFilter createUpsertFilter
    rw [h]
    simp

/-- Witness for C10 at the concrete legacy record. -/
theorem stationFilters_absent_witness :
    useSchemaUpdateFilter "s1" legacyRec = false ∧ createUpsertFilter "s1" legacyRec = false :=
  stationFilters_absent_as_live_amended.2.2.2 "s1" legacyRec rfl

/-! # C8: DestroyStation missing-station message -/

/-- C8: when the station of a destroy request does not exist, the handler
builds the message from the zero-valued station record that the lookup
returned, so the reply is exactly "Station  does not exist" (empty name,
double space). -/
theorem removeStation_missing_reports_empty_name (env : Env) (name : String) (sn : StationName)
    (h1 : StationNameFromStr name = .ok sn)
    (h2 : (IsStationExist env.stations sn).1 = false) :
    (removeStationDirect env { stationName := name }).2 = "Station  does not exist" := by
  have hz : IsStationExist env.stations sn = (false, zeroStation) := by
    unfold IsStationExist
    rw [isStationExist_false_elim h2]
  unfold removeStationDirect
  rw [h1]
  simp only [hz, respondWithErr]
  rfl

/-- Witness for C8: destroying `"x1"` against an empty store. -/
theorem removeStation_missing_witness :
    (removeStationDirect { stations := [], schemas := [], streams := [] }
        { stationName := "x1" }).2 = "Station  does not exist" :=
  removeStation_missing_reports_empty_name
    { stations := [], schemas := [], streams := [] } "x1"
    { internal := "x1", external := "x1" } (by rfl) (by rfl)

/-! # C1/C7 helper: inverting a station-creating run -/

lemma createStationDirect_grow {env : Env} {csr : CreateStationRequest} {st' : Station}
    (h : (createStationDirect env csr).1.stations = env.stations ++ [st']) :
    ∃ sn, StationNameFromStr csr.stationName = .ok sn ∧
      (IsStationExist env.stations sn).1 = false ∧
      st'.name = sn.external ∧ st'.isDeleted = some false ∧
      st'.idempotencyWindow = normalizeIdempotencyWindowDirect csr.idempotencyWindow ∧
      st'.isNative = true := by
  unfold createStationDirect at h
  rcases hsn : StationNameFromStr csr.stationName with e | sn
  · rw [hsn] at h
    exact absurd h (append_singleton_ne _ _)
  · rw [hsn] at h
    dsimp only at h
    by_cases hex : (IsStationExist env.stations sn).1 = true
    · rw [if_pos hex] at h
      exact absurd h (append_singleton_ne _ _)
    · rw [if_neg hex] at h
      have hex' : (IsStationExist env.stations sn).1 = false := by
        simpa using hex
      refine ⟨sn, rfl, hex', ?_⟩
      rcases hsc : (if csr.schemaName == "" then Except.ok none
          else
            let lname := toLowerStr csr.schemaName
            let found := IsSchemaExist env.schemas lname
            if found.1 then
              Except.ok (some { schemaName := lname, versionNumber := found.2.activeVersion })
            else Except.error none : Except (Option String) (Option SchemaDetails)) with e | sd
      · rw [hsc] at h
        exact absurd h (append_singleton_ne _ _)
      · rw [hsc] at h
        dsimp only at h
        rcases hret : (if csr.retentionType == "" then Except.ok ("message_age_sec", 604800)
            else
              let rt := toLowerStr csr.retentionType
              if validateRetentionType rt then Except.ok (rt, csr.retentionValue)
              else Except.error
                "retention type can be one of the following message_age_sec/messages/bytes" :
            Except String (String × Int)) with e | ret
        · rw [hret] at h
          exact absurd h (append_singleton_ne _ _)
        · rw [hret] at h
          dsimp only at h
          rcases hsto : (if csr.storageType == "" then Except.ok "file"
              else
                let sty := toLowerStr csr.storageType
                if validateStorageType sty then Except.ok sty
                else Except.error "storage type can be one of the following file/memory" :
              Except String String) with e | sty
          · rw [hsto] at h
            exact absurd h (append_singleton_ne _ _)
          · rw [hsto] at h
            dsimp only at h
            rcases hrep : (if csr.replicas > 0 then
                if validateReplicas csr.replicas then Except.ok csr.replicas
                else Except.error "max replicas in a cluster is 5"
                else Except.ok 1 : Except String Int) with e | rep
            · rw [hrep] at h
              exact absurd h (append_singleton_ne _ _)
            · rw [hrep] at h
              dsimp only at h
              have hst : st' =
                  { name := sn.external, isDeleted := some false
                    retentionType := ret.1, retentionValue := ret.2
                    storageType := sty, replicas := rep
                    dedupEnabled := csr.dedupEnabled, dedupWindowInMs := csr.dedupWindowMillis
                    idempotencyWindow := normalizeIdempotencyWindowDirect csr.idempotencyWindow
                    schema := sd, isNative := true } := by
                have h2 := List.append_cancel_left h
                injection h2 with h3 _
                exact h3.symm
              rw [hst]
              exact ⟨rfl, rfl, rfl, rfl⟩

lemma createStationHTTP_grow {env : Env} {body : CreateStationRequest} {st' : Station}
    (h : (createStationHTTP env body).1.stations = env.stations ++ [st']) :
    ∃ sn, StationNameFromStr body.stationName = .ok sn ∧
      (IsStationExist env.stations sn).1 = false ∧
      st'.name = sn.external ∧ st'.isDeleted = some false ∧
      st'.idempotencyWindow = normalizeIdempotencyWindowHTTP body.idempotencyWindow ∧
      st'.isNative = true := by
  unfold createStationHTTP at h
  rcases hsn : StationNameFromStr body.stationName with e | sn
  · rw [hsn] at h
    exact absurd h (append_singleton_ne _ _)
  · rw [hsn] at h
    dsimp only at h
    by_cases hex : (IsStationExist env.stations sn).1 = true
    · rw [if_pos hex] at h
      exact absurd h (append_singleton_ne _ _)
    · rw [if_neg hex] at h
      have hex' : (IsStationExist env.stations sn).1 = false := by
        simpa using hex
      refine ⟨sn, rfl, hex', ?_⟩
      rcases hsc : (if body.schemaName == "" then Except.ok none
          else
            let lname := toLowerStr body.schemaName
            let found := IsSchemaExist env.schemas lname
            if found.1 then
              Except.ok (some { schemaName := lname, versionNumber := found.2.activeVersion })
            else Except.error (HttpReply.showable ("Schema " ++ lname ++ " does not exist")) :
          Except HttpReply (Option SchemaDetails)) with r | sd
      · rw [hsc] at h
        exact absurd h (append_singleton_ne _ _)
      · rw [hsc] at h
        dsimp only at h
        rcases hret : (if body.retentionType != "" && body.retentionValue > 0 then
              let rt := toLowerStr body.retentionType
              if validateRetentionType rt then Except.ok (rt, body.retentionValue)
              else Except.error
                "retention type can be one of the following message_age_sec/messages/bytes"
            else Except.ok ("message_age_sec", 604800) :
            Except String (String × Int)) with e | ret
        · rw [hret] at h
          exact absurd h (append_singleton_ne _ _)
        · rw [hret] at h
          dsimp only at h
          rcases hsto : (if body.storageType != "" then
                let sty := toLowerStr body.storageType
                if validateStorageType sty then Except.ok sty
                else Except.error "storage type can be one of the following file/memory"
              else Except.ok "file" : Except String String) with e | sty
          · rw [hsto] at h
            exact absurd h (append_singleton_ne _ _)
          · rw [hsto] at h
            dsimp only at h
            rcases hrep : (if body.replicas > 0 then
                if validateReplicas body.replicas then Except.ok body.replicas
                else Except.error "max replicas in a cluster is 5"
                else Except.ok 1 : Except String Int) with e | rep
            · rw [hrep] at h
              exact absurd h (append_singleton_ne _ _)
            · rw [hrep] at h
              dsimp only at h
              by_cases hup : (upsertStationIfAbsent env.stations
                  { name := sn.external, isDeleted := some false
                    retentionType := ret.1, retentionValue := ret.2
                    storageType := sty, replicas := rep
                    dedupEnabled := body.dedupEnabled, dedupWindowInMs := body.dedupWindowMillis
                    idempotencyWindow := normalizeIdempotencyWindowHTTP body.idempotencyWindow
                    schema := sd, isNative := true }).2 = true
              · rw [if_pos hup] at h
                exact absurd h (append_singleton_ne _ _)
              · rw [if_neg hup] at h
                dsimp only at h
                unfold upsertStationIfAbsent at h hup
                by_cases hany : env.stations.any (fun x => createUpsertFilter sn.external x) = true
                · rw [if_pos hany] at hup
                  exact absurd rfl hup
                · rw [if_neg hany] at h
                  dsimp only at h
                  have hst : st' =
                      { name := sn.external, isDeleted := some false
                        retentionType := ret.1, retentionValue := ret.2
                        storageType := sty, replicas := rep
                        dedupEnabled := body.dedupEnabled, dedupWindowInMs := body.dedupWindowMillis
                        idempotencyWindow := normalizeIdempotencyWindowHTTP body.idempotencyWindow
                        schema := sd, isNative := true } := by
                    have h2 := List.append_cancel_left h
                    injection h2 with h3 _
                    exact h3.symm
                  rw [hst]
                  exact ⟨rfl, rfl, rfl, rfl⟩

lemma createStationDirect_exists {env : Env} {csr : CreateStationRequest} {sn : StationName}
    (h1 : StationNameFromStr csr.stationName = .ok sn)
    (h2 : (IsStationExist env.stations sn).1 = true) :
    createStationDirect env csr = (env, "") := by
  unfold createStationDirect
  rw [h1]
  dsimp only
  rw [if_pos h2]
  rfl

lemma createStationHTTP_exists {env : Env} {body : CreateStationRequest} {sn : StationName}
    (h1 : StationNameFromStr body.stationName = .ok sn)
    (h2 : (IsStationExist env.stations sn).1 = true) :
    createStationHTTP env body
      = (env, .showable ("Station " ++ sn.external ++ " already exists")) := by
  unfold createStationHTTP
  rw [h1]
  dsimp only
  rw [if_pos h2]

/-! # C1: double CreateStation -/

/-- C1 (amended): whenever a CreateStation run persisted a station record —
in either variant — an immediately repeated identical request persists
nothing and leaves exactly one live record with that name; the HTTP variant
replies with the "already exists" error (its persist step is the
upsert-if-absent `upsertStationIfAbsent` with the `MatchedCount` check),
while the SDK-direct variant — whose persist step is a plain insert guarded
by the pre-existence check — replies with *empty bytes*, the success
encoding, because it responds with the nil error of the existence query. -/
theorem createStation_double_create_amended :
    (∀ env csr st',
      (createStationDirect env csr).1.stations = env.stations ++ [st'] →
      createStationDirect (createStationDirect env csr).1 csr
        = ((createStationDirect env csr).1, "")
      ∧ liveCount (createStationDirect env csr).1.stations st'.name = 1)
    ∧ (∀ env body st',
      (createStationHTTP env body).1.stations = env.stations ++ [st'] →
      createStationHTTP (createStationHTTP env body).1 body
        = ((createStationHTTP env body).1,
            .showable ("Station " ++ st'.name ++ " already exists"))
      ∧ liveCount (createStationHTTP env body).1.stations st'.name = 1) := by
  constructor
  · intro env csr st' h
    obtain ⟨sn, hsn, hnex, hname, hdel, _, _⟩ := createStationDirect_grow h
    have hex : (IsStationExist (createStationDirect env csr).1.stations sn).1 = true := by
      rw [h]
      exact isStationExist_append_live hname hdel
    refine ⟨createStationDirect_exists hsn hex, ?_⟩
    rw [h, hname, liveCount_append_live hname hdel,
      liveCount_zero_of_not_exist hnex]
  · intro env body st' h
    obtain ⟨sn, hsn, hnex, hname, hdel, _, _⟩ := createStationHTTP_grow h
    have hex : (IsStationExist (createStationHTTP env body).1.stations sn).1 = true := by
      rw [h]
      exact isStationExist_append_live hname hdel
    refine ⟨?_, ?_⟩
    · rw [createStationHTTP_exists hsn hex, hname]
    · rw [h, hname, liveCount_append_live hname hdel,
        liveCount_zero_of_not_exist hnex]

/-- The request of the two concrete C1 runs. -/
def csrOrders : CreateStationRequest :=
  { stationName := "orders", schemaName := "", retentionType := "", retentionValue := 0
    storageType := "", replicas := 0, dedupEnabled := false, dedupWindowMillis := 0
    idempotencyWindow := 0 }

/-- The station record the first C1 run persists. -/
def ordersRec : Station :=
  { name := "orders", isDeleted := some false, retentionType := "message_age_sec"
    retentionValue := 604800, storageType := "file", replicas := 1
    dedupEnabled := false, dedupWindowInMs := 0, idempotencyWindow := 120000
    schema := none, isNative := true }

/-- C1 counterexample: for two consecutive SDK-direct CreateStation calls
with the same name, the second replies with *empty bytes* — the success
encoding of the wire protocol — and not with a NameExists error message,
while still persisting nothing; the claim says the second returns
NameExists. -/
theorem createStation_direct_duplicate_reply_empty :
    (createStationDirect
        (createStationDirect { stations := [], schemas := [], streams := [] } csrOrders).1
        csrOrders).2 = ""
    ∧ (createStationDirect
        (createStationDirect { stations := [], schemas := [], streams := [] } csrOrders).1
        csrOrders).2 ≠ "Station orders already exists"
    ∧ liveCount
        (createStationDirect
          (createStationDirect { stations := [], schemas := [], streams := [] } csrOrders).1
          csrOrders).1.stations "orders" = 1 := by
  refine ⟨rfl, ?_, rfl⟩
  decide

/-- Witness for C1 at the concrete request, both variants. -/
theorem createStation_double_create_witness :
    (createStationDirect
        (createStationDirect { stations := [], schemas := [], streams := [] } csrOrders).1
        csrOrders
      = ((createStationDirect { stations := [], schemas := [], streams := [] } csrOrders).1, "")
    ∧ liveCount
        (createStationDirect { stations := [], schemas := [], streams := [] } csrOrders).1.stations
        "orders" = 1)
    ∧ (createStationHTTP
        (createStationHTTP { stations := [], schemas := [], streams := [] } csrOrders).1
        csrOrders
      = ((createStationHTTP { stations := [], schemas := [], streams := [] } csrOrders).1,
          .showable "Station orders already exists")
    ∧ liveCount
        (createStationHTTP { stations := [], schemas := [], streams := [] } csrOrders).1.stations
        "orders" = 1) :=
  ⟨createStation_double_create_amended.1
      { stations := [], schemas := [], streams := [] } csrOrders ordersRec (by rfl),
   createStation_double_create_amended.2
      { stations := [], schemas := [], streams := [] } csrOrders ordersRec (by rfl)⟩

/-! # C7: idempotency-window normalization -/

/-- C7: in both the SDK-direct and HTTP CreateStation variants, an
idempotency window `x ≤ 0` becomes 120000, `0 < x < 100` becomes 100, and
`x ≥ 100` is kept; the value persisted on a created station record is exactly
the normalized request value. -/
theorem idempotency_window_normalization :
    (∀ x : Int, x ≤ 0 →
        normalizeIdempotencyWindowDirect x = 120000 ∧ normalizeIdempotencyWindowHTTP x = 120000)
    ∧ (∀ x : Int, 0 < x → x < 100 →
        normalizeIdempotencyWindowDirect x = 100 ∧ normalizeIdempotencyWindowHTTP x = 100)
    ∧ (∀ x : Int, 100 ≤ x →
        normalizeIdempotencyWindowDirect x = x ∧ normalizeIdempotencyWindowHTTP x = x)
    ∧ (∀ env csr st', (createStationDirect env csr).1.stations = env.stations ++ [st'] →
        st'.idempotencyWindow = normalizeIdempotencyWindowDirect csr.idempotencyWindow)
    ∧ (∀ env body st', (createStationHTTP env body).1.stations = env.stations ++ [st'] →
        st'.idempotencyWindow = normalizeIdempotencyWindowHTTP body.idempotencyWindow) := by
  refine ⟨?_, ?_, ?_, ?_, ?_⟩
  · intro x h
    constructor <;>
      · simp only [normalizeIdempotencyWindowDirect, normalizeIdempotencyWindowHTTP]
        rw [if_pos h]
  · intro x h1 h2
    constructor <;>
      · simp only [normalizeIdempotencyWindowDirect, normalizeIdempotencyWindowHTTP]
        rw [if_neg (by omega), if_pos h2]
  · intro x h
    constructor <;>
      · simp only [normalizeIdempotencyWindowDirect, normalizeIdempotencyWindowHTTP]
        rw [if_neg (by omega), if_neg (by omega)]
  · intro env csr st' h
    obtain ⟨_, _, _, _, _, hidem, _⟩ := createStationDirect_grow h
    exact hidem
  · intro env body st' h
    obtain ⟨_, _, _, _, _, hidem, _⟩ := createStationHTTP_grow h
    exact hidem

/-- Witness for C7 at 50 (clamped up to 100), -3 (default 120000) and 200
(unchanged), and at the persisted record of a concrete direct run. -/
theorem idempotency_window_normalization_witness :
    ((0:Int) < 50 ∧ (50:Int) < 100 ∧ normalizeIdempotencyWindowDirect 50 = 100
      ∧ normalizeIdempotencyWindowHTTP 50 = 100)
    ∧ ((-3:Int) ≤ 0 ∧ normalizeIdempotencyWindowDirect (-3) = 120000)
    ∧ ((100:Int) ≤ 200 ∧ normalizeIdempotencyWindowHTTP 200 = 200)
    ∧ ordersRec.idempotencyWindow = normalizeIdempotencyWindowDirect csrOrders.idempotencyWindow :=
  ⟨⟨by decide, by decide,
    (idempotency_window_normalization.2.1 50 (by decide) (by decide)).1,
    (idempotency_window_normalization.2.1 50 (by decide) (by decide)).2⟩,
   ⟨by decide, (idempotency_window_normalization.1 (-3) (by decide)).1⟩,
   ⟨by decide, (idempotency_window_normalization.2.2.1 200 (by decide)).2⟩,
   idempotency_window_normalization.2.2.2.1
     { stations := [], schemas := [], streams := [] } csrOrders ordersRec (by rfl)⟩

/-! # C4 helpers: UpdateOne under the live lookup -/

lemma strict_imp_live {n : String} {st : Station}
    (h : useSchemaUpdateFilter n st = true) : getStationFilter n st = true := by
  unfold useSchemaUpdateFilter at h
  obtain ⟨h1, h2⟩ := (Bool.and_eq_true _ _).mp h
  unfold getStationFilter
  rw [h1, h2]
  rfl

lemma find?_updateFirst_schema (n : String) (d : SchemaDetails) :
    ∀ (l : List Station) (st : Station),
      l.find? (fun x => getStationFilter n x) = some st →
      st.isDeleted = some false →
      (updateFirst l (fun x => useSchemaUpdateFilter n x)
          (fun x => { x with schema := some d })).find? (fun x => getStationFilter n x)
        = some { st with schema := some d } := by
  intro l
  induction l with
  | nil =>
    intro st h _
    simp [List.find?] at h
  | cons x xs ih =>
    intro st h hdel
    by_cases hx : getStationFilter n x = true
    · rw [List.find?_cons_of_pos _ hx] at h
      have hxs : x = st := by
        injection h
      subst hxs
      have hstrict : useSchemaUpdateFilter n x = true := by
        unfold getStationFilter at hx
        have hn := ((Bool.and_eq_true _ _).mp hx).1
        unfold useSchemaUpdateFilter
        rw [hn, hdel]
        rfl
      unfold updateFirst
      rw [if_pos hstrict]
      rw [List.find?_cons_of_pos]
      exact hx
    · have hx' : ¬ (getStationFilter n x = true) := hx
      rw [List.find?_cons_of_neg _ hx'] at h
      have hstrict : ¬ (useSchemaUpdateFilter n x = true) := by
        intro hc
        exact hx' (strict_imp_live hc)
      unfold updateFirst
      rw [if_neg hstrict]
      rw [List.find?_cons_of_neg _ hx']
      exact ih st h hdel

/-! # C4: AttachSchema persists the binding and publishes Init -/

/-- C4: for an AttachSchema on an existing live station (explicitly
non-deleted) and an existing schema, the station record afterwards carries
the binding `(lowercase(schema), activeVersion(schema))` and a
`ProducerSchemaUpdate` of kind Init carrying the resolved schema content is
published on the station's update subject; the handler replies success and
does not panic. -/
theorem attachSchema_binding_and_init_publish
    (env : Env) (asr : AttachSchemaRequest) (sn : StationName) (st : Station) (sc : Schema)
    (h1 : StationNameFromStr asr.stationName = .ok sn)
    (h2 : env.stations.find? (fun x => getStationFilter sn.external x) = some st)
    (hdel : st.isDeleted = some false)
    (h3 : IsSchemaExist env.schemas (toLowerStr asr.name) = (true, sc)) :
    ((useSchemaDirect env asr).env.stations.find? (fun x => getStationFilter sn.external x)
        = some { st with schema :=
            (some { schemaName := toLowerStr asr.name, versionNumber := sc.activeVersion }) })
    ∧ (schemaUpdatesSubject sn.internal,
        SchemaUpdate.init (toLowerStr asr.name) sc.activeVersion)
          ∈ (useSchemaDirect env asr).published
    ∧ (useSchemaDirect env asr).panicked = false
    ∧ (useSchemaDirect env asr).replies = [""] := by
  have hex : (IsStationExist env.stations sn).1 = true := by
    unfold IsStationExist
    rw [h2]
  unfold useSchemaDirect
  rw [h1]
  dsimp only
  simp only [hex, h3, Bool.not_true, Bool.false_eq_true, if_false]
  refine ⟨?_, ?_, ?_, ?_⟩
  · exact find?_updateFirst_schema sn.external _ env.stations st h2 hdel
  · exact List.mem_singleton.mpr rfl
  · trivial
  · trivial

/-- The schema record of the concrete C4 run. -/
def schemaOrderV1 : Schema := { name := "orderv1", activeVersion := 3 }

/-- Environment of the concrete C4 and C2 runs: one live station `orders`,
one schema `orderv1` at active version 3. -/
def envAttach : Env :=
  { stations := [ordersRec], schemas := [schemaOrderV1], streams := [] }

/-- Witness for C4: attaching `OrderV1` to station `Orders` (spec scenario
S4). -/
theorem attachSchema_binding_witness :
    ((useSchemaDirect envAttach { name := "OrderV1", stationName := "Orders" }).env.stations.find?
        (fun x => getStationFilter "orders" x)
      = some { ordersRec with
               schema := (some { schemaName := "orderv1", versionNumber := 3 }) })
    ∧ (schemaUpdatesSubject "orders", SchemaUpdate.init "orderv1" 3)
        ∈ (useSchemaDirect envAttach { name := "OrderV1", stationName := "Orders" }).published
    ∧ (useSchemaDirect envAttach { name := "OrderV1", stationName := "Orders" }).panicked = false
    ∧ (useSchemaDirect envAttach { name := "OrderV1", stationName := "Orders" }).replies = [""] :=
  attachSchema_binding_and_init_publish envAttach
    { name := "OrderV1", stationName := "Orders" }
    { internal := "orders", external := "orders" }
    ordersRec schemaOrderV1 (by rfl) (by rfl) rfl (by rfl)

/-! # C2: a request that produces no reply -/

/-- C2: delivering an attach-schema request naming a schema that does not
exist, against an existing station, makes `useSchemaDirect` evaluate
`err.Error()` on a nil error (part_000 line 1732; the error was checked nil
at line 1726), so the handler goroutine panics and the request produces zero
replies — not the exactly-one reply the dispatcher contract requires. -/
theorem useSchemaDirect_missing_schema_unreplied :
    useSchemaDirect envAttach { name := "nosuch", stationName := "orders" }
      = { env := envAttach, replies := [], published := [], panicked := true }
    ∧ (useSchemaDirect envAttach { name := "nosuch", stationName := "orders" }).replies.length
        = 0 := by
  constructor
  · rfl
  · rfl

/-! # C3 helpers: the collection loop -/

lemma collectLoop_arrivals_then_timer (amount : Nat) (ms : List StoredMsg)
    (junk : List FetchEvent) :
    collectLoop amount (ms.map FetchEvent.arrival ++ FetchEvent.timerFired :: junk)
      = ms.take amount := by
  induction ms generalizing amount with
  | nil =>
    cases amount <;> simp [collectLoop]
  | cons m rest ih =>
    cases amount with
    | zero => simp [collectLoop]
    | succ n =>
      simp only [List.map_cons, List.cons_append, collectLoop, List.take_succ_cons]
      exact congrArg (List.cons m) (ih n)

/-! # C3: fetch-by-filter collection and consumer cleanup -/

/-- C3 (amended): the collection loop stops at the first timer event without
consuming anything beyond it and collects `min(amount, k)` of the `k`
delivered matching messages — all `k` when `amount ≥ k`, exactly `amount`
when `amount < k`; and a fetch run in which the subscription succeeds and the
engine delivers every matching message before the timer collects exactly the
matching messages (the code's amount is the stream's total, which is `≥ k`)
and leaves the durable consumer removed.  (On the subscribe-failure error
path the consumer is *not* removed — see the counterexample.) -/
theorem dls_fetch_collect_and_cleanup_amended :
    (∀ (amount : Nat) (ms : List StoredMsg) (junk : List FetchEvent),
        collectLoop amount (ms.map FetchEvent.arrival ++ FetchEvent.timerFired :: junk)
          = ms.take amount)
    ∧ (∀ (e : DlsEngine) (streamName durable : String) (filter : DlsSubject) (st : StreamState),
        findStream e streamName = some st →
        (fetchDlsByFilter e streamName durable filter true
            (deliveryThenTimeout st filter)).result = .ok (matchingMsgs st filter)
        ∧ (streamName, durable) ∉
            (fetchDlsByFilter e streamName durable filter true
              (deliveryThenTimeout st filter)).engine.consumers) := by
  constructor
  · exact collectLoop_arrivals_then_timer
  · intro e streamName durable filter st h
    unfold fetchDlsByFilter
    rw [h]
    simp only [Bool.not_true, Bool.false_eq_true, if_false]
    constructor
    · unfold deliveryThenTimeout
      rw [collectLoop_arrivals_then_timer]
      rw [List.take_of_length_le
        (show (matchingMsgs st filter).length ≤ st.msgs.length from
          List.length_filter_le _ _)]
    · unfold removeConsumer addConsumer
      dsimp only
      intro hmem
      have := (List.mem_filter.mp hmem).2
      simp at this

/-- Concrete DLS ids, subjects, messages and engines used by the C3/C5/C9
witnesses and counterexamples. -/
def dlsId1 : DlsMsgId := { station := "s1", kind := .poison, seq := 1 }

/-- Second concrete DLS id (sequence 2) of station `s1`. -/
def dlsId2 : DlsMsgId := { station := "s1", kind := .poison, seq := 2 }

/-- Subject of the first concrete DLS message. -/
def dlsSubj1 : DlsSubject := { kind := .poison, station := "s1", msgId := dlsId1 }

/-- Subject of the second concrete DLS message. -/
def dlsSubj2 : DlsSubject := { kind := .poison, station := "s1", msgId := dlsId2 }

/-- First concrete stored message. -/
def msg1 : StoredMsg := { subject := dlsSubj1, sequence := 1 }

/-- Second concrete stored message. -/
def msg2 : StoredMsg := { subject := dlsSubj2, sequence := 2 }

/-- A one-message DLS stream of station `s1`. -/
def streamOne : StreamState := { name := "$memphis-dls-s1", msgs := [msg1] }

/-- A two-message DLS stream of station `s1`. -/
def streamTwo : StreamState := { name := "$memphis-dls-s1", msgs := [msg1, msg2] }

/-- The engine of the concrete C3 runs: one DLS stream with one poison
message. -/
def engineOneMsg : DlsEngine := { streams := [streamOne], consumers := [] }

/-- The engine of the concrete C5 run: a DLS stream with two messages, only
the first of which matches the poison filter for the requested id. -/
def engineTwoMsgs : DlsEngine := { streams := [streamTwo], consumers := [] }

/-- C3 counterexample: when subscribing the reply subject fails after the
durable consumer was created, the handler returns on the error path with the
durable consumer still registered — cleanup does not run on this exit path. -/
theorem dls_fetch_subscribe_fail_leaks_consumer :
    (fetchDlsByFilter engineOneMsg "$memphis-dls-s1" "dur0" dlsSubj1 false []).result
      = .error .subscribeFailed
    ∧ ("$memphis-dls-s1", "dur0") ∈
        (fetchDlsByFilter engineOneMsg "$memphis-dls-s1" "dur0"
          dlsSubj1 false []).engine.consumers := by
  constructor
  · rfl
  · decide

/-- Witness for C3 at the concrete one-message engine: the successful fetch
collects the single matching message and removes the consumer. -/
theorem dls_fetch_collect_witness :
    (fetchDlsByFilter engineOneMsg "$memphis-dls-s1" "dur0" dlsSubj1 true
        (deliveryThenTimeout streamOne dlsSubj1)).result = .ok (matchingMsgs streamOne dlsSubj1)
    ∧ ("$memphis-dls-s1", "dur0") ∉
        (fetchDlsByFilter engineOneMsg "$memphis-dls-s1" "dur0" dlsSubj1 true
          (deliveryThenTimeout streamOne dlsSubj1)).engine.consumers :=
  dls_fetch_collect_and_cleanup_amended.2 engineOneMsg "$memphis-dls-s1" "dur0"
    dlsSubj1 streamOne (by rfl)

/-! # C5 helpers: the deletion fold -/

lemma find?_name_map_delete (l : List StreamState) (n : String) (seq : Nat) :
    (l.map (fun s =>
        if s.name == n then { s with msgs := s.msgs.filter (fun m => !(m.sequence == seq)) }
        else s)).find? (fun s => s.name == n)
      = (l.find? (fun s => s.name == n)).map
          (fun s => { s with msgs := s.msgs.filter (fun m => !(m.sequence == seq)) }) := by
  rw [List.find?_map]
  have hpf : ((fun s : StreamState => s.name == n) ∘ (fun s : StreamState =>
      if s.name == n then { s with msgs := s.msgs.filter (fun m => !(m.sequence == seq)) }
      else s)) = (fun s : StreamState => s.name == n) := by
    funext s
    by_cases h : (s.name == n) = true
    · simp [Function.comp, h]
    · simp [Function.comp, h]
  rw [hpf]
  cases hf : l.find? (fun s => s.name == n) with
  | none => rfl
  | some y =>
    have hy' : (y.name == n) = true :=
      @List.find?_some StreamState (fun s => s.name == n) y l hf
    simp only [Option.map_some']
    rw [if_pos hy']

lemma find?_name_map_delete_other (l : List StreamState) (n other : String) (seq : Nat)
    (hne : ¬ (other = n)) :
    (l.map (fun s =>
        if s.name == n then { s with msgs := s.msgs.filter (fun m => !(m.sequence == seq)) }
        else s)).find? (fun s => s.name == other)
      = l.find? (fun s => s.name == other) := by
  rw [List.find?_map]
  have hpf : ((fun s : StreamState => s.name == other) ∘ (fun s : StreamState =>
      if s.name == n then { s with msgs := s.msgs.filter (fun m => !(m.sequence == seq)) }
      else s)) = (fun s : StreamState => s.name == other) := by
    funext s
    by_cases h : (s.name == n) = true
    · simp [Function.comp, h]
    · simp [Function.comp, h]
  rw [hpf]
  cases hf : l.find? (fun s => s.name == other) with
  | none => rfl
  | some y =>
    have hy' : (y.name == other) = true :=
      @List.find?_some StreamState (fun s => s.name == other) y l hf
    have hyn : (y.name == n) = false := by
      rw [beq_eq_false_iff_ne]
      intro hc
      exact hne ((beq_iff_eq.mp hy').symm.trans hc)
    simp only [Option.map_some']
    rw [hyn]
    simp

lemma findStream_deleteMsg_self {e : DlsEngine} {n : String} {seq : Nat} {st : StreamState}
    (h : findStream e n = some st) :
    findStream (deleteMsgFromStream e n seq) n
      = some { st with msgs := st.msgs.filter (fun m => !(m.sequence == seq)) } := by
  unfold findStream deleteMsgFromStream
  unfold findStream at h
  dsimp only
  rw [find?_name_map_delete, h]
  rfl

lemma findStream_deleteMsg_other {e : DlsEngine} {n other : String} {seq : Nat}
    (hne : ¬ (other = n)) :
    findStream (deleteMsgFromStream e n seq) other = findStream e other := by
  unfold findStream deleteMsgFromStream
  dsimp only
  exact find?_name_map_delete_other e.streams n other seq hne

lemma findStream_deleteSeqs (streamName : String) :
    ∀ (seqs : List Nat) (e : DlsEngine) (st : StreamState),
      findStream e streamName = some st →
      findStream (seqs.foldl (fun acc s => deleteMsgFromStream acc streamName s) e) streamName
        = some { st with msgs := st.msgs.filter (fun m => !(seqs.contains m.sequence)) } := by
  intro seqs
  induction seqs with
  | nil =>
    intro e st h
    simpa using h
  | cons s rest ih =>
    intro e st h
    rw [List.foldl_cons]
    have h1 := @findStream_deleteMsg_self e streamName s st h
    have h2 := ih (deleteMsgFromStream e streamName s) _ h1
    rw [h2]
    dsimp only
    simp only [List.filter_filter]
    have hmsgs : st.msgs.filter (fun a => !(rest.contains a.sequence) && !(a.sequence == s))
        = st.msgs.filter (fun m => !((s :: rest).contains m.sequence)) := by
      apply List.filter_congr
      intro m _
      simp only [List.contains_cons, Bool.not_or]
      rw [Bool.and_comm]
    rw [hmsgs]

lemma findStream_deleteSeqs_other (streamName other : String) (hne : ¬ (other = streamName)) :
    ∀ (seqs : List Nat) (e : DlsEngine),
      findStream (seqs.foldl (fun acc s => deleteMsgFromStream acc streamName s) e) other
        = findStream e other := by
  intro seqs
  induction seqs with
  | nil => intro e; rfl
  | cons s rest ih =>
    intro e
    rw [List.foldl_cons, ih, findStream_deleteMsg_other hne]

lemma ackDeleteCollected_eq_deleteSeqs (e : DlsEngine) (streamName : String)
    (collected : List StoredMsg) :
    ackDeleteCollected e streamName collected
      = (collected.map (fun m => m.sequence)).foldl
          (fun acc s => deleteMsgFromStream acc streamName s) e := by
  unfold ackDeleteCollected
  rw [List.foldl_map]

lemma fetchDlsByFilter_streams (e : DlsEngine) (streamName durable : String)
    (filter : DlsSubject) (subOk : Bool) (events : List FetchEvent) :
    (fetchDlsByFilter e streamName durable filter subOk events).engine.streams = e.streams := by
  unfold fetchDlsByFilter
  cases h : findStream e streamName with
  | none => rfl
  | some st =>
    dsimp only
    by_cases hs : (!subOk) = true
    · rw [if_pos hs]
      rfl
    · rw [if_neg hs]
      rfl

/-! # C5: Ack deletes exactly the collected sequences -/

/-- C5: when the fetch phase of an `AckPoisonMessages` iteration succeeds
with a collected buffer, the deletion phase removes from the DLS stream
exactly the messages whose sequence is among the collected sequences — every
collected sequence is deleted and no other message of the stream, nor any
other stream, is touched. -/
theorem ackPoison_deletes_exactly_collected
    (e : DlsEngine) (streamName durable : String) (filter : DlsSubject)
    (subOk : Bool) (events : List FetchEvent) (e' : DlsEngine)
    (collected : List StoredMsg) (st : StreamState)
    (hrun : ackPoisonMsgOne e streamName durable filter subOk events = (e', .ok collected))
    (hst : findStream e streamName = some st) :
    findStream e' streamName
      = some { st with msgs := st.msgs.filter (fun m => !((collected.map (fun x => x.sequence)).contains m.sequence)) }
    ∧ ∀ other, ¬ (other = streamName) → findStream e' other = findStream e other := by
  simp only [ackPoisonMsgOne] at hrun
  rcases hres : (fetchDlsByFilter e streamName durable filter subOk events).result with err | msgs
  · rw [hres] at hrun
    dsimp only at hrun
    injection hrun with _ hbad
    exact FetchResult.noConfusion hbad
  · rw [hres] at hrun
    dsimp only at hrun
    injection hrun with he hc
    have hmsgs : msgs = collected := by
      injection hc
    subst hmsgs
    subst he
    have hstf : findStream (fetchDlsByFilter e streamName durable filter subOk events).engine
        streamName = some st := by
      unfold findStream
      rw [fetchDlsByFilter_streams]
      exact hst
    constructor
    · rw [ackDeleteCollected_eq_deleteSeqs]
      exact findStream_deleteSeqs streamName _ _ st hstf
    · intro other hne
      rw [ackDeleteCollected_eq_deleteSeqs,
        findStream_deleteSeqs_other streamName other hne]
      unfold findStream
      rw [fetchDlsByFilter_streams]

/-- Witness for C5: the run collects the single matching message (sequence 1)
and afterwards the stream holds exactly the other message. -/
theorem ackPoison_deletes_witness :
    findStream
        (ackPoisonMsgOne engineTwoMsgs "$memphis-dls-s1" "dur0" dlsSubj1 true
          [FetchEvent.arrival msg1, FetchEvent.timerFired]).1 "$memphis-dls-s1"
      = some { streamTwo with msgs := streamTwo.msgs.filter (fun m => !(([msg1].map (fun x => x.sequence)).contains m.sequence)) } :=
  (ackPoison_deletes_exactly_collected engineTwoMsgs "$memphis-dls-s1" "dur0" dlsSubj1 true
    [FetchEvent.arrival msg1, FetchEvent.timerFired]
    (ackPoisonMsgOne engineTwoMsgs "$memphis-dls-s1" "dur0" dlsSubj1 true
      [FetchEvent.arrival msg1, FetchEvent.timerFired]).1
    [msg1] streamTwo (by rfl) (by rfl)).1

/-! # C9 helpers: fetch descriptors of the per-id loops -/

lemma ackPoisonLoop_descriptors (streamName intern : String) (events : Nat → List FetchEvent) :
    ∀ (ids : List DlsMsgId) (n : Nat) (e e' : DlsEngine) (fs : List (String × DlsSubject)),
      ackPoisonLoop streamName intern events e ids n = some (e', fs) →
      fs = ids.map (fun i => (streamName, GetDlsSubject .poison intern i)) := by
  intro ids
  induction ids with
  | nil =>
    intro n e e' fs h
    simp only [ackPoisonLoop] at h
    injection h with h
    injection h with _ h2
    exact h2.symm
  | cons msgId rest ih =>
    intro n e e' fs h
    simp only [ackPoisonLoop] at h
    rcases h1 : ackPoisonMsgOne e streamName
        ("$memphis_fetch_dls_consumer_" ++ toString n)
        (GetDlsSubject .poison intern msgId) true (events n) with ⟨e1, r⟩
    rw [h1] at h
    cases r with
    | error err =>
      exact Option.noConfusion h
    | ok msgs =>
      dsimp only at h
      rcases h2 : ackPoisonLoop streamName intern events e1 rest (n + 1) with _ | p
      · rw [h2] at h
        exact Option.noConfusion h
      · rw [h2] at h
        dsimp only at h
        injection h with h
        injection h with _ h3
        rw [← h3, List.map_cons]
        rw [ih (n + 1) e1 p.1 p.2 (by rw [h2])]

lemma resendPoisonLoop_descriptors (streamName intern : String) (events : Nat → List FetchEvent) :
    ∀ (ids : List DlsMsgId) (n : Nat) (e e' : DlsEngine) (fs : List (String × DlsSubject)),
      resendPoisonLoop streamName intern events e ids n = some (e', fs) →
      fs = ids.map (fun i => (streamName, GetDlsSubject .poison intern i)) := by
  intro ids
  induction ids with
  | nil =>
    intro n e e' fs h
    simp only [resendPoisonLoop] at h
    injection h with h
    injection h with _ h2
    exact h2.symm
  | cons msgId rest ih =>
    intro n e e' fs h
    simp only [resendPoisonLoop] at h
    rcases h1 : fetchDlsByFilter e streamName
        ("$memphis_fetch_dls_consumer_" ++ toString n)
        (GetDlsSubject .poison intern msgId) true (events n) with ⟨e1, r⟩
    rw [h1] at h
    cases r with
    | error err =>
      exact Option.noConfusion h
    | ok msgs =>
      dsimp only at h
      rcases h2 : resendPoisonLoop streamName intern events e1 rest (n + 1) with _ | p
      · rw [h2] at h
        exact Option.noConfusion h
      · rw [h2] at h
        dsimp only at h
        injection h with h
        injection h with _ h3
        rw [← h3, List.map_cons]
        rw [ih (n + 1) e1 p.1 p.2 (by rw [h2])]

/-! # C9: the first id fixes the stream and the poison-kind filter -/

/-- C9: both `AckPoisonMessages` and `ResendPoisonMessages` derive the DLS
stream name solely from the station encoded in the first id of the request:
every fetch they perform targets that first station's DLS stream with a
poison-kind filter subject built from that station and the current id.
Consequently, in a well-formed DLS stream of station `s`, an id encoding a
different station or the schemaverse-failed kind matches no messages. -/
theorem ackResend_first_id_station_poison_filter :
    (∀ (e : DlsEngine) (ids : List DlsMsgId) (events : Nat → List FetchEvent)
        (sn : StationName) (out : DlsEngine × List (String × DlsSubject)),
      ackPoisonMessages e ids events = some out →
      StationNameFromStr ((ids.headD { station := "", kind := .poison, seq := 0 }).station)
        = .ok sn →
      out.2 = ids.map (fun i => (dlsStreamNameFmt sn.internal, GetDlsSubject .poison sn.internal i)))
    ∧ (∀ (e : DlsEngine) (ids : List DlsMsgId) (events : Nat → List FetchEvent)
        (sn : StationName) (out : DlsEngine × List (String × DlsSubject)),
      resendPoisonMessages e ids events = some out →
      StationNameFromStr ((ids.headD { station := "", kind := .poison, seq := 0 }).station)
        = .ok sn →
      out.2 = ids.map (fun i => (dlsStreamNameFmt sn.internal, GetDlsSubject .poison sn.internal i)))
    ∧ (∀ (station : String) (st : StreamState) (msgId : DlsMsgId),
      wellFormedDlsStream station st = true →
      (¬ (msgId.station = station) ∨ msgId.kind = .schemaverse) →
      matchingMsgs st (GetDlsSubject .poison station msgId) = []) := by
  refine ⟨?_, ?_, ?_⟩
  · intro e ids events sn out h hsn
    cases ids with
    | nil => exact Option.noConfusion h
    | cons id0 rest =>
      simp only [ackPoisonMessages] at h
      simp only [List.headD_cons] at hsn
      rw [hsn] at h
      dsimp only at h
      exact ackPoisonLoop_descriptors (dlsStreamNameFmt sn.internal) sn.internal events
        (id0 :: rest) 0 e out.1 out.2 (by rw [h])
  · intro e ids events sn out h hsn
    cases ids with
    | nil => exact Option.noConfusion h
    | cons id0 rest =>
      simp only [resendPoisonMessages] at h
      simp only [List.headD_cons] at hsn
      rw [hsn] at h
      dsimp only at h
      exact resendPoisonLoop_descriptors (dlsStreamNameFmt sn.internal) sn.internal events
        (id0 :: rest) 0 e out.1 out.2 (by rw [h])
  · intro station st msgId hwf hdiff
    unfold matchingMsgs
    rw [List.filter_eq_nil_iff]
    intro m hm hmatch
    have hsubj : m.subject = GetDlsSubject .poison station msgId := beq_iff_eq.mp hmatch
    have hw := List.all_eq_true.mp hwf m hm
    obtain ⟨hw12, hw3⟩ := (Bool.and_eq_true _ _).mp hw
    obtain ⟨hw1, hw2⟩ := (Bool.and_eq_true _ _).mp hw12
    have hid : m.subject.msgId = msgId := by
      rw [hsubj]
      rfl
    have hkind : m.subject.kind = DlsKind.poison := by
      rw [hsubj]
      rfl
    cases hdiff with
    | inl hstation =>
      apply hstation
      rw [← hid]
      exact beq_iff_eq.mp hw2
    | inr hschema =>
      have : msgId.kind = DlsKind.poison := by
        rw [← hid, beq_iff_eq.mp hw3, hkind]
      rw [hschema] at this
      exact DlsKind.noConfusion this

/-- A DLS id of a *different* station, used by the C9 witness. -/
def dlsIdOther : DlsMsgId := { station := "s2", kind := .poison, seq := 7 }

/-- Witness for C9: a two-id Ack run against station `s1` fetches both ids
from `s1`'s DLS stream with poison filters, and the id of station `s2`
matches no message of `s1`'s well-formed stream. -/
theorem ackResend_first_id_witness :
    ((ackPoisonMessages engineTwoMsgs [dlsId1, dlsIdOther] (fun _ => [FetchEvent.timerFired])).getD
        (engineTwoMsgs, [])).2
      = [dlsId1, dlsIdOther].map
          (fun i => (dlsStreamNameFmt "s1", GetDlsSubject .poison "s1" i))
    ∧ matchingMsgs streamTwo (GetDlsSubject .poison "s1" dlsIdOther) = [] := by
  constructor
  · exact ackResend_first_id_station_poison_filter.1 engineTwoMsgs [dlsId1, dlsIdOther]
      (fun _ => [FetchEvent.timerFired]) { internal := "s1", external := "s1" }
      ((ackPoisonMessages engineTwoMsgs [dlsId1, dlsIdOther]
          (fun _ => [FetchEvent.timerFired])).getD (engineTwoMsgs, []))
      (by rfl) (by rfl)
  · exact ackResend_first_id_station_poison_filter.2.2 "s1" streamTwo dlsIdOther
      (by rfl) (Or.inl (by decide))

end MemphisBroker
